import Mathlib

/-!
Verification of the PyShell command processor (`backend/command_processor.py`).

The development shallowly embeds the `CommandProcessor` class: its session
state (`terminal_root`, `current_dir`), the tokenizer (`shlex.split` in POSIX
mode, as `execute` calls it), the dispatch loop of `execute`, and every
`cmd_*` handler, over an explicit model of the host filesystem.

Modelling conventions, stated once here:
* A host path is a `List String` of components from the filesystem root;
  `render` produces the `str(Path)` form.  `Path.resolve()` is modelled as
  lexical normalisation (`resolvePath`); symbolic links are represented as
  entries but are not followed by resolution or by `exists`/`is_dir`/
  `is_file` (they behave like dangling links), which no theorem below
  depends on.
* Host-supplied data with no functional specification (wall-clock time,
  `time.strftime`/`time.ctime` rendering, `platform` fields) is carried in
  an `Env` record inside the session state.
* Python exceptions are the `PyExc` type; a handler returns its (possibly
  mutated) state together with `Except PyExc String`, so a fault raised
  after a state mutation (as in `cmd_cd`) keeps the mutation, exactly as
  attribute assignment does in the source.  Exception message texts are
  host/CPython-version dependent; the model fixes representative texts,
  and no theorem depends on them beyond the dispatcher's
  "Error running <name>: <message>" framing.
-/

namespace PyShell

/-! ## Python string primitives -/

/-- The ASCII whitespace recognised both by `str.strip` (restricted to ASCII
input) and by `shlex` (`shlex.whitespace` is a subset of this set). -/
def pyWhitespace (c : Char) : Bool :=
  c == ' ' || c == '\t' || c == '\n' || c == '\x0d' || c == '\x0b' || c == '\x0c'

/-- `str.strip()` (ASCII fragment). -/
def pyStrip (s : String) : String :=
  String.mk (((s.data.dropWhile pyWhitespace).reverse.dropWhile pyWhitespace).reverse)

/-- `str.lower()` (ASCII fragment, which is all the dispatcher relies on). -/
def pyLower (s : String) : String :=
  String.mk (s.data.map Char.toLower)

/-- `str.splitlines()` restricted to the ASCII terminators `\n`, `\r\n`, `\r`. -/
def pySplitlinesAux : List Char → List Char → List String
  | [], acc => if acc.isEmpty then [] else [String.mk acc.reverse]
  | '\x0d' :: '\n' :: rest, acc => String.mk acc.reverse :: pySplitlinesAux rest []
  | '\x0d' :: rest, acc => String.mk acc.reverse :: pySplitlinesAux rest []
  | '\n' :: rest, acc => String.mk acc.reverse :: pySplitlinesAux rest []
  | c :: rest, acc => pySplitlinesAux rest (c :: acc)

def pySplitlines (s : String) : List String :=
  pySplitlinesAux s.data []

/-- `str.split()` with no argument: split on runs of whitespace, no empties. -/
def pySplitWsAux : List Char → List Char → List String
  | [], acc => if acc.isEmpty then [] else [String.mk acc.reverse]
  | c :: rest, acc =>
    if pyWhitespace c then
      if acc.isEmpty then pySplitWsAux rest []
      else String.mk acc.reverse :: pySplitWsAux rest []
    else pySplitWsAux rest (c :: acc)

def pySplitWs (s : String) : List String :=
  pySplitWsAux s.data []

/-- Python's `pattern in line` substring test, scanning every suffix. -/
def containsSub (pat : List Char) : List Char → Bool
  | [] => pat.isEmpty
  | c :: rest => pat.isPrefixOf (c :: rest) || containsSub pat rest

def strContains (pat s : String) : Bool :=
  containsSub pat.data s.data

/-- `sorted` on strings compares lexicographically by code point. -/
def lexLe : List Char → List Char → Bool
  | [], _ => true
  | _ :: _, [] => false
  | a :: as, b :: bs => if a < b then true else if b < a then false else lexLe as bs

def pyStrLe (a b : String) : Bool := lexLe a.data b.data

def pyInsert (x : String) : List String → List String
  | [] => [x]
  | y :: ys => if pyStrLe x y then x :: y :: ys else y :: pyInsert x ys

/-- Python `sorted` for lists of strings (stable insertion sort). -/
def pySorted : List String → List String
  | [] => []
  | x :: xs => pyInsert x (pySorted xs)

/-- Concatenation of string pieces, as repeated `+=` builds `help_text`. -/
def strConcat : List String → String
  | [] => ""
  | a :: rest => a ++ strConcat rest

/-! ## Python exceptions -/

inductive ExcKind
  | fileExists
  | fileNotFound
  | notADir
  | permission
  | osError
  | valueError
deriving DecidableEq

/-- An exception as the handlers observe it: its class (what `except` clauses
match on) and `str(e)`. -/
structure PyExc where
  kind : ExcKind
  msg : String
deriving DecidableEq

/-- `OSError` and all its subclasses, as caught by `except OSError`. -/
def ExcKind.isOSError : ExcKind → Bool
  | .valueError => false
  | _ => true

/-! ## The tokenizer: `shlex.split` in POSIX mode

`execute` calls `shlex.split(cmd.strip())`, i.e. `shlex` with `posix=True`,
`whitespace_split=True` and comments disabled.  The state machine below is a
direct transcription of `shlex.read_token` for that configuration: quotes
group, `\` escapes outside quotes and (for `\\` and `\"` only) inside double
quotes, an unclosed quote raises `ValueError("No closing quotation")`, a
trailing escape raises `ValueError("No escaped character")`. -/

inductive ShMode
  | sp      -- between tokens (state `' '`)
  | word    -- inside a token (state `'a'`)
  | squote  -- inside '...'
  | dquote  -- inside "..."
  | escW    -- after `\` outside quotes (escapedstate `'a'`)
  | escD    -- after `\` inside "..." (escapedstate `'"'`)
deriving DecidableEq

def shEmit (tok : String) (quoted : Bool) : List String :=
  if tok ≠ "" ∨ quoted then [tok] else []

def shlexRun : List Char → ShMode → String → Bool → List String →
    Except PyExc (List String)
  | [], .sp, tok, quoted, acc => .ok (acc ++ shEmit tok quoted)
  | [], .word, tok, quoted, acc => .ok (acc ++ shEmit tok quoted)
  | [], .squote, _, _, _ => .error ⟨.valueError, "No closing quotation"⟩
  | [], .dquote, _, _, _ => .error ⟨.valueError, "No closing quotation"⟩
  | [], .escW, _, _, _ => .error ⟨.valueError, "No escaped character"⟩
  | [], .escD, _, _, _ => .error ⟨.valueError, "No escaped character"⟩
  | c :: rest, .sp, tok, quoted, acc =>
    if pyWhitespace c then shlexRun rest .sp "" false (acc ++ shEmit tok quoted)
    else if c == '\\' then shlexRun rest .escW tok quoted acc
    else if c == '\'' then shlexRun rest .squote tok true acc
    else if c == '"' then shlexRun rest .dquote tok true acc
    else shlexRun rest .word (tok.push c) quoted acc
  | c :: rest, .word, tok, quoted, acc =>
    if pyWhitespace c then shlexRun rest .sp "" false (acc ++ shEmit tok quoted)
    else if c == '\\' then shlexRun rest .escW tok quoted acc
    else if c == '\'' then shlexRun rest .squote tok true acc
    else if c == '"' then shlexRun rest .dquote tok true acc
    else shlexRun rest .word (tok.push c) quoted acc
  | c :: rest, .squote, tok, quoted, acc =>
    if c == '\'' then shlexRun rest .word tok quoted acc
    else shlexRun rest .squote (tok.push c) quoted acc
  | c :: rest, .dquote, tok, quoted, acc =>
    if c == '"' then shlexRun rest .word tok quoted acc
    else if c == '\\' then shlexRun rest .escD tok quoted acc
    else shlexRun rest .dquote (tok.push c) quoted acc
  | c :: rest, .escW, tok, quoted, acc => shlexRun rest .word (tok.push c) quoted acc
  | c :: rest, .escD, tok, quoted, acc =>
    if c == '\\' || c == '"' then shlexRun rest .dquote (tok.push c) quoted acc
    else shlexRun rest .dquote ((tok.push '\\').push c) quoted acc

def shlexSplit (s : String) : Except PyExc (List String) :=
  shlexRun s.data .sp "" false []

/-! ## Host paths

A path is the list of its components below the filesystem root.  `render`
is `str(Path)`; `resolvePath` is `(base / arg).resolve()` in a world
without symbolic links: an absolute argument replaces the base, `.` and
empty segments vanish, `..` pops (clamping at the root). -/

/-- `str.startswith(pre)`. -/
def pyStartsWith (s pre : String) : Bool := pre.data.isPrefixOf s.data

/-- `s.split("/")` (empty pieces kept, as Python's `str.split` with an
argument keeps them). -/
def splitSlashAux : List Char → List Char → List String
  | [], acc => [String.mk acc.reverse]
  | '/' :: rest, acc => String.mk acc.reverse :: splitSlashAux rest []
  | c :: rest, acc => splitSlashAux rest (c :: acc)

def splitSlash (s : String) : List String := splitSlashAux s.data []

def applySeg (acc : List String) (seg : String) : List String :=
  if seg = "" ∨ seg = "." then acc
  else if seg = ".." then acc.dropLast
  else acc ++ [seg]

def resolvePath (base : List String) (arg : String) : List String :=
  (splitSlash arg).foldl applySeg (if pyStartsWith arg "/" then [] else base)

/-- `"/".join` of the components, as `str` renders an absolute `Path`. -/
def renderComps : List String → String
  | [] => ""
  | [a] => a
  | a :: b :: rest => a ++ "/" ++ renderComps (b :: rest)

def render (p : List String) : String := "/" ++ renderComps p

/-- `str(p.relative_to(root))`: `none` models the `ValueError` raised when
`p` is not equal to or below `root`. -/
def pyRelativeTo (root p : List String) : Option String :=
  if root.isPrefixOf p then
    some (if p = root then "." else renderComps (p.drop root.length))
  else none

/-- `str(base / arg)` without `resolve()`: `PurePath` joining keeps `..`
components but drops `.` and empty segments (this is what the source stores
as a symlink's literal target in `cmd_ln`). -/
def pyJoinStr (base : List String) (arg : String) : String :=
  let comps := (splitSlash arg).filter (fun s => !(s == "" || s == "."))
  if pyStartsWith arg "/" then render comps else render (base ++ comps)

/-! ## The filesystem

A finite association list from normalised absolute paths to entries.  The
filesystem root `[]` always exists as a directory.  Modes are kept because
`chmod` writes them; nothing in the command set ever displays one, so their
default values (0o777 for directories, 0o666 for files) stand for whatever
the host's umask yields. -/

inductive Entry
  | dir (mode : Nat) (mtime : Nat)
  | file (content : String) (mode : Nat) (mtime : Nat)
  | link (target : String)
deriving DecidableEq

abbrev FS := List (List String × Entry)

def fsLookup (fs : FS) (p : List String) : Option Entry := fs.lookup p

/-- A name is taken (what `os.mkdir`/`symlink` collide with: also a dangling
link occupies its name). -/
def occupiedFS (fs : FS) (p : List String) : Bool :=
  p.isEmpty || (fsLookup fs p).isSome

def isDirFS (fs : FS) (p : List String) : Bool :=
  p.isEmpty ||
    (match fsLookup fs p with
     | some (.dir _ _) => true
     | _ => false)

def isFileFS (fs : FS) (p : List String) : Bool :=
  match fsLookup fs p with
  | some (.file _ _ _) => true
  | _ => false

/-- `Path.exists()` (symlinks not followed, see the header note). -/
def pathExistsFS (fs : FS) (p : List String) : Bool :=
  isDirFS fs p || isFileFS fs p

def fsErase (fs : FS) (p : List String) : FS :=
  fs.filter (fun kv => !(kv.1 == p))

def fsInsert (fs : FS) (p : List String) (e : Entry) : FS :=
  (p, e) :: fsErase fs p

/-- The strict ancestors of `p`, shortest first (used by `mkdir -p`). -/
def ancestorsOf (p : List String) : List (List String) :=
  (List.range p.length).map (fun k => p.take k)

def createDirIfMissing (now : Nat) (acc : Except PyExc FS) (q : List String) :
    Except PyExc FS :=
  match acc with
  | .error e => .error e
  | .ok fs =>
    if isDirFS fs q then .ok fs
    else if occupiedFS fs q then .error ⟨.notADir, "Not a directory: " ++ render q⟩
    else .ok (fsInsert fs q (.dir 511 now))

/-- `Path.mkdir(parents=True, exist_ok=False)`. -/
def mkdirParents (fs : FS) (p : List String) (now : Nat) : Except PyExc FS :=
  if occupiedFS fs p then .error ⟨.fileExists, "File exists: " ++ render p⟩
  else
    match (ancestorsOf p).foldl (createDirIfMissing now) (.ok fs) with
    | .error e => .error e
    | .ok fs2 => .ok (fsInsert fs2 p (.dir 511 now))

def hasChildFS (fs : FS) (p : List String) : Bool :=
  fs.any (fun kv => !(kv.1 == p) && p.isPrefixOf kv.1)

/-- The names `os.listdir` yields (before `cmd_ls` sorts them). -/
def listdirFS (fs : FS) (p : List String) : Except PyExc (List String) :=
  if isDirFS fs p then
    .ok (fs.filterMap (fun kv =>
      if kv.1.dropLast == p then kv.1.getLast? else none))
  else if occupiedFS fs p then .error ⟨.notADir, "Not a directory: " ++ render p⟩
  else .error ⟨.fileNotFound, "No such file or directory: " ++ render p⟩

/-- Re-key every entry under `src` below `dst` (same-filesystem rename). -/
def moveTree (fs : FS) (src dst : List String) : FS :=
  fs.map (fun kv =>
    if src.isPrefixOf kv.1 then (dst ++ kv.1.drop src.length, kv.2) else kv)

/-- The entries under `src`, re-keyed below `dst` (for `shutil.copytree`). -/
def subtreeCopy (fs : FS) (src dst : List String) : FS :=
  fs.filterMap (fun kv =>
    if src.isPrefixOf kv.1 then some (dst ++ kv.1.drop src.length, kv.2) else none)

/-! ## The session -/

/-- Host facts with no functional model: the clock, the rendered forms
`time.strftime`/`time.ctime` produce, and the `platform` module's fields. -/
structure Env where
  nowUnix : Nat
  dateStr : String
  ctimeStr : Nat → String
  platformSystem : String
  platformRelease : String
  platformMachine : String

/-- Modelled from the spec: `commands_list.py` (defining `COMMANDS` and
`COMMAND_HELP`) is not among the repository's files, so the registry is the
abstract static mapping the spec describes in §3 — a set of lowercase
command names and a name → help-text mapping, immutable after start-up.
Theorems about dispatch quantify over it. -/
structure Registry where
  commands : List String
  commandHelp : List (String × String)

/-- The `CommandProcessor` state: the jail root fixed at construction, the
current directory cursor, and the world it acts on. -/
structure Shell where
  terminal_root : List String
  current_dir : List String
  fs : FS
  env : Env

/-- A command handler: `cmd_<name>(self, args)`.  It returns the state (its
mutations survive even when it raises, as in the source where they are
attribute assignments) and either its string result or the exception it
raised. -/
abbrev Handler := Registry → List String → Shell → Shell × Except PyExc String

def helpLookup (hm : List (String × String)) (c : String) : Option String :=
  hm.lookup c

/-! ## File and directory handlers -/

def fmtLsItem (fs : FS) (p : List String) (item : String) : String :=
  if isDirFS fs (p ++ [item]) then item ++ "/"
  else if isFileFS fs (p ++ [item]) then item
  else item

def cmd_ls : Handler := fun _ _ st =>
  match listdirFS st.fs st.current_dir with
  | .ok items =>
    if items.isEmpty then (st, .ok ("(empty directory)"))
    else
      (st, .ok (String.intercalate "\n"
        ((pySorted items).map (fmtLsItem st.fs st.current_dir))))
  | .error e =>
    if e.kind = .permission then (st, .ok ("Permission denied"))
    else (st, .ok ("Error listing directory: " ++ e.msg))

def cmd_cd : Handler := fun _ args st =>
  match args with
  | [] =>
    let st' := { st with current_dir := st.terminal_root ++ ["home"] }
    (st', .ok ("Changed to home directory: " ++ render st'.current_dir))
  | target :: _ =>
    if target = ".." then
      let st' :=
        if st.current_dir ≠ st.terminal_root then
          { st with current_dir := st.current_dir.dropLast }
        else st
      (st', .ok ("Changed to parent directory: " ++ render st'.current_dir))
    else if target = "~" then
      let st' := { st with current_dir := st.terminal_root ++ ["home"] }
      (st', .ok ("Changed to home directory: " ++ render st'.current_dir))
    else
      let new_path := resolvePath st.current_dir target
      if pyStartsWith (render new_path) (render st.terminal_root)
          && pathExistsFS st.fs new_path && isDirFS st.fs new_path then
        -- the cursor is assigned BEFORE relative_to can raise, so a
        -- string-prefix pass with a ValueError still commits the move
        let st' := { st with current_dir := new_path }
        match pyRelativeTo st.terminal_root new_path with
        | some rel => (st', .ok ("Changed to: " ++ rel))
        | none =>
          (st', .error ⟨.valueError,
            render new_path ++ " is not in the subpath of " ++
              render st.terminal_root⟩)
      else (st, .ok ("Directory not found: " ++ target))

def cmd_pwd : Handler := fun _ _ st =>
  match pyRelativeTo st.terminal_root st.current_dir with
  | some rel => (st, .ok rel)
  | none =>
    (st, .error ⟨.valueError,
      render st.current_dir ++ " is not in the subpath of " ++
        render st.terminal_root⟩)

def cmd_mkdir : Handler := fun _ args st =>
  match args with
  | [] => (st, .ok ("mkdir: missing operand"))
  | dirname :: _ =>
    match mkdirParents st.fs (resolvePath st.current_dir dirname) st.env.nowUnix with
    | .ok fs' => ({ st with fs := fs' }, .ok ("Created directory: " ++ dirname))
    | .error e =>
      if e.kind = .fileExists then
        (st, .ok ("Directory already exists: " ++ dirname))
      else if e.kind = .permission then
        (st, .ok ("Permission denied: cannot create directory " ++ dirname))
      else (st, .error e)

def cmd_rm : Handler := fun _ args st =>
  match args with
  | [] => (st, .ok ("rm: missing operand"))
  | filename :: _ =>
    let target := resolvePath st.current_dir filename
    if isFileFS st.fs target then
      ({ st with fs := fsErase st.fs target }, .ok ("Removed file: " ++ filename))
    else if isDirFS st.fs target then
      (st, .ok ("rm: " ++ filename ++ " is a directory (use rmdir or rm -r)"))
    else
      (st, .ok ("rm: cannot remove '" ++ filename ++ "': No such file or directory"))

def cmd_rmdir : Handler := fun _ args st =>
  match args with
  | [] => (st, .ok ("rmdir: missing operand"))
  | dirname :: _ =>
    let target := resolvePath st.current_dir dirname
    if isDirFS st.fs target then
      if hasChildFS st.fs target then
        -- `except OSError as e` renders str(e); the model omits the
        -- host-dependent "[Errno 39] " prefix
        (st, .ok ("rmdir: failed to remove '" ++ dirname ++ "': Directory not empty"))
      else
        ({ st with fs := fsErase st.fs target },
         .ok ("Removed directory: " ++ dirname))
    else (st, .ok ("rmdir: failed to remove '" ++ dirname ++ "': Not a directory"))

def cmd_touch : Handler := fun _ args st =>
  match args with
  | [] => (st, .ok ("touch: missing operand"))
  | filename :: _ =>
    let p := resolvePath st.current_dir filename
    match fsLookup st.fs p with
    | some (.file c mo _) =>
      ({ st with fs := fsInsert st.fs p (.file c mo st.env.nowUnix) },
       .ok ("Created/updated file: " ++ filename))
    | some (.dir mo _) =>
      ({ st with fs := fsInsert st.fs p (.dir mo st.env.nowUnix) },
       .ok ("Created/updated file: " ++ filename))
    | some (.link _) => (st, .ok ("Created/updated file: " ++ filename))
    | none =>
      if isDirFS st.fs p.dropLast then
        ({ st with fs := fsInsert st.fs p (.file "" 438 st.env.nowUnix) },
         .ok ("Created/updated file: " ++ filename))
      else if occupiedFS st.fs p.dropLast then
        (st, .error ⟨.notADir, "Not a directory: " ++ render p⟩)
      else (st, .error ⟨.fileNotFound, "No such file or directory: " ++ render p⟩)

def cmd_cat : Handler := fun _ args st =>
  match args with
  | [] => (st, .ok ("Usage: cat <file>"))
  | a :: _ =>
    match fsLookup st.fs (resolvePath st.current_dir a) with
    | some (.file c _ _) => (st, .ok c)
    | _ => (st, .ok ("No such file: " ++ a))

def cmd_echo : Handler := fun _ args st =>
  (st, .ok (String.intercalate " " args))

def cmd_clear : Handler := fun _ _ st =>
  (st, .ok ("<CLEAR_SCREEN>"))

def basenameOf (p : List String) : String := p.getLastD ""

def cmd_mv : Handler := fun _ args st =>
  match args with
  | [a, b] =>
    let src := resolvePath st.current_dir a
    let dst := resolvePath st.current_dir b
    if !(occupiedFS st.fs src) then
      (st, .error ⟨.fileNotFound, "No such file or directory: " ++ render src⟩)
    else if isDirFS st.fs dst then
      -- shutil.move into a directory: dst/basename(src) must be fresh
      let realDst := dst ++ [basenameOf src]
      if occupiedFS st.fs realDst then
        (st, .error ⟨.osError,
          "Destination path '" ++ render realDst ++ "' already exists"⟩)
      else
        ({ st with fs := moveTree st.fs src realDst },
         .ok ("Moved '" ++ a ++ "' to '" ++ b ++ "'"))
    else
      -- same-filesystem rename; an existing non-directory target is replaced
      ({ st with fs := moveTree (fsErase st.fs dst) src dst },
       .ok ("Moved '" ++ a ++ "' to '" ++ b ++ "'"))
  | _ => (st, .ok ("Usage: mv <src> <dest>"))

def cmd_cp : Handler := fun _ args st =>
  match args with
  | [a, b] =>
    let src := resolvePath st.current_dir a
    let dst := resolvePath st.current_dir b
    if isDirFS st.fs src then
      -- shutil.copytree: the destination must not exist yet
      if occupiedFS st.fs dst then
        (st, .error ⟨.fileExists, "File exists: " ++ render dst⟩)
      else
        ({ st with fs := st.fs ++ subtreeCopy st.fs src dst },
         .ok ("Copied '" ++ a ++ "' to '" ++ b ++ "'"))
    else
      match fsLookup st.fs src with
      | some (.file c mo _) =>
        -- shutil.copy: into a directory by basename, else to dst, overwriting
        let realDst := if isDirFS st.fs dst then dst ++ [basenameOf src] else dst
        ({ st with fs := fsInsert st.fs realDst (.file c mo st.env.nowUnix) },
         .ok ("Copied '" ++ a ++ "' to '" ++ b ++ "'"))
      | _ =>
        (st, .error ⟨.fileNotFound, "No such file or directory: " ++ render src⟩)
  | _ => (st, .ok ("Usage: cp <src> <dest>"))

def cmd_ln : Handler := fun _ args st =>
  match args with
  | a :: b :: _ =>
    let linkName := resolvePath st.current_dir b
    if occupiedFS st.fs linkName then
      (st, .ok ("Error creating link: File exists: " ++ render linkName))
    else if isDirFS st.fs linkName.dropLast then
      ({ st with fs := fsInsert st.fs linkName (.link (pyJoinStr st.current_dir a)) },
       .ok ("Created symbolic link: " ++ b ++ " -> " ++ a))
    else
      (st, .ok ("Error creating link: No such file or directory: " ++ render linkName))
  | _ => (st, .ok ("Usage: ln <target> <link_name>"))

/-- `int(mode, 8)` (sign/underscore forms aside, which no shell use hits). -/
def parseOctal (s : String) : Option Nat :=
  if s ≠ "" ∧ s.data.all (fun c => '0' ≤ c ∧ c ≤ '7') then
    some (s.data.foldl (fun n c => n * 8 + (c.toNat - '0'.toNat)) 0)
  else none

def cmd_chmod : Handler := fun _ args st =>
  match args with
  | mode :: filename :: _ =>
    match parseOctal mode with
    | none =>
      (st, .ok ("Error changing permissions: invalid literal for int() with base 8: '"
        ++ mode ++ "'"))
    | some m =>
      let p := resolvePath st.current_dir filename
      match fsLookup st.fs p with
      | some (.file c _ mt) =>
        ({ st with fs := fsInsert st.fs p (.file c m mt) },
         .ok ("Changed permissions of " ++ filename ++ " to " ++ mode))
      | some (.dir _ mt) =>
        ({ st with fs := fsInsert st.fs p (.dir m mt) },
         .ok ("Changed permissions of " ++ filename ++ " to " ++ mode))
      | _ =>
        (st, .ok ("Error changing permissions: No such file or directory: " ++ render p))
  | _ => (st, .ok ("Usage: chmod <mode> <file>"))

def cmd_file : Handler := fun _ args st =>
  match args with
  | [] => (st, .ok ("Usage: file <filename>"))
  | a :: _ =>
    let p := resolvePath st.current_dir a
    if pathExistsFS st.fs p then
      if isDirFS st.fs p then (st, .ok (a ++ ": directory"))
      else if isFileFS st.fs p then (st, .ok (a ++ ": regular file"))
      else (st, .ok (a ++ ": special file"))
    else (st, .ok (a ++ ": cannot open"))

def cmd_stat : Handler := fun _ args st =>
  match args with
  | [] => (st, .ok ("Usage: stat <file>"))
  | a :: _ =>
    match fsLookup st.fs (resolvePath st.current_dir a) with
    | some (.file c _ mt) =>
      (st, .ok ("File: " ++ a ++ "\nSize: " ++ toString c.utf8ByteSize ++
        " bytes\nModified: " ++ st.env.ctimeStr mt))
    | some (.dir _ mt) =>
      -- a directory's on-disk st_size is host-dependent; one block here
      (st, .ok ("File: " ++ a ++ "\nSize: " ++ toString (4096 : Nat) ++
        " bytes\nModified: " ++ st.env.ctimeStr mt))
    | _ => (st, .ok ("stat: cannot stat '" ++ a ++ "': No such file or directory"))

/-! ## Text-processing handlers -/

def cmd_head : Handler := fun _ args st =>
  match args with
  | [] => (st, .ok ("Usage: head <file>"))
  | a :: _ =>
    match fsLookup st.fs (resolvePath st.current_dir a) with
    | some (.file c _ _) =>
      (st, .ok (String.intercalate "\n" ((pySplitlines c).take 10)))
    | _ => (st, .ok ("No such file: " ++ a))

def cmd_tail : Handler := fun _ args st =>
  match args with
  | [] => (st, .ok ("Usage: tail <file>"))
  | a :: _ =>
    match fsLookup st.fs (resolvePath st.current_dir a) with
    | some (.file c _ _) =>
      let lines := pySplitlines c
      (st, .ok (String.intercalate "\n" (lines.drop (lines.length - 10))))
    | _ => (st, .ok ("No such file: " ++ a))

def cmd_grep : Handler := fun _ args st =>
  match args with
  | pat :: fn :: _ =>
    match fsLookup st.fs (resolvePath st.current_dir fn) with
    | some (.file c _ _) =>
      let lines := pySplitlines c
      let ms := lines.enum.filterMap (fun il =>
        if strContains pat il.2 then some (toString (il.1 + 1) ++ ":" ++ il.2)
        else none)
      (st, .ok (if ms.isEmpty then "(no matches)" else String.intercalate "\n" ms))
    | _ => (st, .ok ("No such file: " ++ fn))
  | _ => (st, .ok ("Usage: grep <pattern> <file>"))

def cmd_sort : Handler := fun _ args st =>
  match args with
  | [] => (st, .ok ("Usage: sort <file>"))
  | a :: _ =>
    match fsLookup st.fs (resolvePath st.current_dir a) with
    | some (.file c _ _) =>
      (st, .ok (String.intercalate "\n" (pySorted (pySplitlines c))))
    | _ => (st, .ok ("No such file: " ++ a))

/-- The loop of `cmd_uniq`: `prev_line` starts as `None` and is set to the
current line whenever it is kept. -/
def uniqLoop : Option String → List String → List String
  | _, [] => []
  | prev, l :: rest =>
    if some l ≠ prev then l :: uniqLoop (some l) rest
    else uniqLoop prev rest

def cmd_uniq : Handler := fun _ args st =>
  match args with
  | [] => (st, .ok ("Usage: uniq <file>"))
  | a :: _ =>
    match fsLookup st.fs (resolvePath st.current_dir a) with
    | some (.file c _ _) =>
      (st, .ok (String.intercalate "\n" (uniqLoop none (pySplitlines c))))
    | _ => (st, .ok ("No such file: " ++ a))

def cmd_wc : Handler := fun _ args st =>
  match args with
  | [] => (st, .ok ("Usage: wc <file>"))
  | a :: _ =>
    match fsLookup st.fs (resolvePath st.current_dir a) with
    | some (.file c _ _) =>
      (st, .ok (toString (pySplitlines c).length ++ " " ++
        toString (pySplitWs c).length ++ " " ++ toString c.length ++ " " ++ a))
    | _ => (st, .ok ("No such file: " ++ a))

def cmd_cut : Handler := fun _ args st =>
  if args.length < 2 then (st, .ok ("Usage: cut -d<delimiter> -f<field> <file>"))
  else
    let a := args.getLastD ""
    match fsLookup st.fs (resolvePath st.current_dir a) with
    | some (.file c _ _) =>
      (st, .ok (String.intercalate "\n"
        ((pySplitlines c).filterMap (fun line => (pySplitWs line).head?))))
    | _ => (st, .ok ("No such file: " ++ a))

/-! ## System-information and stub handlers -/

def cmd_whoami : Handler := fun _ _ st => (st, .ok ("terminal_user"))

def cmd_date : Handler := fun _ _ st => (st, .ok st.env.dateStr)

def cmd_uptime : Handler := fun _ _ st =>
  (st, .ok ("up " ++ toString (st.env.nowUnix / 3600) ++ " hours"))

def cmd_uname : Handler := fun _ _ st =>
  (st, .ok (st.env.platformSystem ++ " " ++ st.env.platformRelease ++ " " ++
    st.env.platformMachine))

def cmd_df : Handler := fun _ _ st =>
  (st, .ok ("Filesystem     1K-blocks    Used Available Use% Mounted on\n/dev/root       1000000   500000    500000  50% /"))

def cmd_du : Handler := fun _ args st =>
  match args with
  | [] => (st, .ok ("Usage: du <directory>"))
  | a :: _ =>
    let p := resolvePath st.current_dir a
    if isDirFS st.fs p then
      let total := (st.fs.filterMap (fun kv =>
        match kv.2 with
        | .file c _ _ =>
          if p.isPrefixOf kv.1 && !(kv.1 == p) then some c.utf8ByteSize else none
        | _ => none)).sum
      (st, .ok (toString (total / 1024) ++ "\t" ++ a))
    else (st, .ok ("du: cannot access '" ++ a ++ "': No such file or directory"))

def cmd_free : Handler := fun _ _ st =>
  (st, .ok ("              total        used        free      shared  buff/cache   available\nMem:        8000000     4000000     2000000          0     2000000     4000000\nSwap:       2000000           0     2000000"))

def cmd_top : Handler := fun _ _ st =>
  (st, .ok ("PID USER      PR  NI    VIRT    RES    SHR S  %CPU  %MEM     TIME+ COMMAND\n1 root      20   0   12345    1234    1234 S   0.0   0.1   0:00.01 init"))

def cmd_ps : Handler := fun _ _ st =>
  (st, .ok ("PID TTY          TIME CMD\n1 ?        00:00:00 init\n2 ?        00:00:00 kthreadd"))

def cmd_kill : Handler := fun _ args st =>
  match args with
  | [] => (st, .ok ("kill: missing operand"))
  | a :: _ => (st, .ok ("Process " ++ a ++ " terminated"))

def cmd_killall : Handler := fun _ args st =>
  match args with
  | [] => (st, .ok ("killall: missing operand"))
  | a :: _ => (st, .ok ("Process " ++ a ++ " terminated"))

def cmd_jobs : Handler := fun _ _ st => (st, .ok ("No jobs running"))

def cmd_bg : Handler := fun _ _ st => (st, .ok ("No jobs to run in background"))

def cmd_fg : Handler := fun _ _ st => (st, .ok ("No jobs to bring to foreground"))

def cmd_ping : Handler := fun _ args st =>
  match args with
  | [] => (st, .ok ("Usage: ping <host>"))
  | a :: _ =>
    (st, .ok ("PING " ++ a ++ " (127.0.0.1): 56 data bytes\n64 bytes from 127.0.0.1: icmp_seq=0 ttl=64 time=0.1 ms"))

def cmd_curl : Handler := fun _ args st =>
  match args with
  | [] => (st, .ok ("Usage: curl <url>"))
  | a :: _ => (st, .ok ("curl: (6) Could not resolve host: " ++ a))

def cmd_wget : Handler := fun _ args st =>
  match args with
  | [] => (st, .ok ("Usage: wget <url>"))
  | a :: _ => (st, .ok ("wget: unable to resolve host address '" ++ a ++ "'"))

def cmd_ssh : Handler := fun _ _ st =>
  (st, .ok ("ssh: connect to host: Connection refused"))

def cmd_scp : Handler := fun _ _ st =>
  (st, .ok ("scp: connect to host: Connection refused"))

def cmd_tar : Handler := fun _ args st =>
  match args with
  | [] => (st, .ok ("Usage: tar [options] <archive>"))
  | _ =>
    (st, .ok ("tar: " ++ args.getLastD "" ++ ": Cannot open: No such file or directory"))

def cmd_zip : Handler := fun _ args st =>
  if args.length < 2 then (st, .ok ("Usage: zip <archive> <files...>"))
  else (st, .ok ("zip: " ++ args.headD "" ++ ": No such file or directory"))

def cmd_unzip : Handler := fun _ args st =>
  match args with
  | [] => (st, .ok ("Usage: unzip <archive>"))
  | a :: _ =>
    (st, .ok ("unzip: cannot find or open " ++ a ++ ", " ++ a ++ ".zip or " ++ a ++ ".ZIP"))

def cmd_history : Handler := fun _ _ st => (st, .ok ("No history available"))

def cmd_alias : Handler := fun _ args st =>
  match args with
  | [] => (st, .ok ("No aliases defined"))
  | a :: _ => (st, .ok ("Alias '" ++ a ++ "' created"))

def cmd_export : Handler := fun _ args st =>
  match args with
  | [] => (st, .ok ("No environment variables to export"))
  | a :: _ => (st, .ok ("Exported " ++ a))

def cmd_env : Handler := fun _ _ st =>
  (st, .ok ("PATH=/usr/bin:/bin\nHOME=/home/terminal_user\nUSER=terminal_user"))

def cmd_which : Handler := fun reg args st =>
  match args with
  | [] => (st, .ok ("Usage: which <command>"))
  | a :: _ =>
    if reg.commands.contains a then (st, .ok ("/usr/bin/" ++ a))
    else (st, .ok ("which: no " ++ a ++ " in (/usr/bin:/bin)"))

def cmd_whereis : Handler := fun reg args st =>
  match args with
  | [] => (st, .ok ("Usage: whereis <command>"))
  | a :: _ =>
    if reg.commands.contains a then (st, .ok (a ++ ": /usr/bin/" ++ a))
    else (st, .ok (a ++ ":"))

/-! ## Help and documentation handlers -/

/-- The category table hard-coded in `cmd_help`, in the order the `order`
list visits it (the two structures in the source list the same keys). -/
def helpCategories : List (String × List String) :=
  [("File & Directory Operations",
    ["ls", "cd", "pwd", "mkdir", "rm", "rmdir", "touch", "cat", "echo", "mv",
     "cp", "ln", "chmod", "chown", "file", "stat"]),
   ("Text Processing",
    ["head", "tail", "grep", "sed", "awk", "sort", "uniq", "wc", "cut"]),
   ("System Information",
    ["whoami", "date", "uptime", "uname", "df", "du", "free", "top", "ps",
     "kill", "killall", "jobs", "bg", "fg"]),
   ("Network & Utilities",
    ["ping", "curl", "wget", "ssh", "scp", "tar", "zip", "unzip"]),
   ("Terminal Control",
    ["clear", "history", "alias", "export", "env", "which", "whereis"]),
   ("Help & Documentation",
    ["help", "man", "info"])]

/-- `f"{cmd:<10}"`: left-justify, pad to width 10 with spaces. -/
def padTo10 (c : String) : String :=
  c ++ String.mk (List.replicate (10 - c.length) ' ')

def helpCmdLine (hm : List (String × String)) (c : String) : String :=
  match helpLookup hm c with
  | some t => "  " ++ padTo10 c ++ " - " ++ t ++ "\n"
  | none => ""

def helpCatBlock (hm : List (String × String)) (cat : String × List String) : String :=
  cat.1 ++ ":\n" ++ strConcat ((pySorted cat.2).map (helpCmdLine hm)) ++ "\n"

def cmd_help : Handler := fun reg _ st =>
  match pyRelativeTo st.terminal_root st.current_dir with
  | some rel =>
    (st, .ok ("Available commands:\n\n" ++
      strConcat (helpCategories.map (helpCatBlock reg.commandHelp)) ++
      "Current directory: " ++ rel ++
      "\nTip: Use 'cd ..' to go up one directory level"))
  | none =>
    (st, .error ⟨.valueError,
      render st.current_dir ++ " is not in the subpath of " ++
        render st.terminal_root⟩)

def cmd_man : Handler := fun reg args st =>
  match args with
  | [] => (st, .ok ("Usage: man <command>"))
  | a :: _ =>
    match helpLookup reg.commandHelp a with
    | some t => (st, .ok ("Manual page for " ++ a ++ "\n\n" ++ t))
    | none => (st, .ok ("No manual entry for " ++ a))

def cmd_info : Handler := fun reg args st =>
  match args with
  | [] => (st, .ok ("Usage: info <command>"))
  | a :: _ =>
    match helpLookup reg.commandHelp a with
    | some t => (st, .ok ("Info: " ++ a ++ "\n\n" ++ t))
    | none => (st, .ok ("No info entry for " ++ a))

/-! ## Dispatch

`getattr(self, f"cmd_{command}")`: the class's `cmd_`-prefixed attributes
are exactly the 54 handlers above (there is no `cmd_chown`, `cmd_sed` or
`cmd_awk` although those names appear in the help table). -/

def handlerFor : String → Option Handler
  | "ls" => some cmd_ls
  | "cd" => some cmd_cd
  | "pwd" => some cmd_pwd
  | "mkdir" => some cmd_mkdir
  | "rm" => some cmd_rm
  | "rmdir" => some cmd_rmdir
  | "touch" => some cmd_touch
  | "cat" => some cmd_cat
  | "echo" => some cmd_echo
  | "clear" => some cmd_clear
  | "mv" => some cmd_mv
  | "cp" => some cmd_cp
  | "ln" => some cmd_ln
  | "chmod" => some cmd_chmod
  | "file" => some cmd_file
  | "stat" => some cmd_stat
  | "head" => some cmd_head
  | "tail" => some cmd_tail
  | "grep" => some cmd_grep
  | "sort" => some cmd_sort
  | "uniq" => some cmd_uniq
  | "wc" => some cmd_wc
  | "cut" => some cmd_cut
  | "whoami" => some cmd_whoami
  | "date" => some cmd_date
  | "uptime" => some cmd_uptime
  | "uname" => some cmd_uname
  | "df" => some cmd_df
  | "du" => some cmd_du
  | "free" => some cmd_free
  | "top" => some cmd_top
  | "ps" => some cmd_ps
  | "kill" => some cmd_kill
  | "killall" => some cmd_killall
  | "jobs" => some cmd_jobs
  | "bg" => some cmd_bg
  | "fg" => some cmd_fg
  | "ping" => some cmd_ping
  | "curl" => some cmd_curl
  | "wget" => some cmd_wget
  | "ssh" => some cmd_ssh
  | "scp" => some cmd_scp
  | "tar" => some cmd_tar
  | "zip" => some cmd_zip
  | "unzip" => some cmd_unzip
  | "history" => some cmd_history
  | "alias" => some cmd_alias
  | "export" => some cmd_export
  | "env" => some cmd_env
  | "which" => some cmd_which
  | "whereis" => some cmd_whereis
  | "help" => some cmd_help
  | "man" => some cmd_man
  | "info" => some cmd_info
  | _ => none

/-- `CommandProcessor.execute`.  The pair's second component is the string
returned to the caller, or — `.error` — the exception that propagates out of
`execute` (only `shlex.split` can raise outside the `try` block). -/
def pyExecute (reg : Registry) (st : Shell) (cmd : String) :
    Shell × Except PyExc String :=
  if cmd = "" ∨ pyStrip cmd = "" then (st, .ok "")
  else
    match shlexSplit (pyStrip cmd) with
    | .error e => (st, .error e)
    | .ok [] => (st, .ok "")
    | .ok (w :: rest) =>
      let command := pyLower w
      if reg.commands.contains command then
        match handlerFor command with
        | some h =>
          match h reg rest st with
          | (st', .ok out) => (st', .ok out)
          | (st', .error e) =>
            (st', .ok ("Error running " ++ command ++ ": " ++ e.msg))
        | none => (st, .ok ("Handler for '" ++ command ++ "' not implemented yet."))
      else
        (st, .ok ("Command not found: " ++ command ++
          ". Type 'help' for available commands."))

/-! ## Concrete fixtures used by the claim instances -/

def env0 : Env :=
  { nowUnix := 0, dateStr := "", ctimeStr := fun _ => "",
    platformSystem := "", platformRelease := "", platformMachine := "" }

def reg0 : Registry := { commands := [], commandHelp := [] }

/-- A host with the jail at `/app/terminal_root`, its `home` subdirectory, a
sample file, and — crucially for the containment claims — a sibling
directory `/app/terminal_rootX` whose name extends the jail root's. -/
def jailFS : FS :=
  [(["app"], .dir 511 0),
   (["app", "terminal_root"], .dir 511 0),
   (["app", "terminal_root", "home"], .dir 511 0),
   (["app", "terminal_rootX"], .dir 511 0),
   (["app", "terminal_root", "f.txt"], .file "foo\nbar\nfoo baz" 438 0),
   (["app", "terminal_root", "u.txt"], .file "a\na\nb\na" 438 0)]

/-- A freshly constructed session in that host (`current_dir` starts at the
jail root, as `__init__` sets it). -/
def jailSt : Shell :=
  { terminal_root := ["app", "terminal_root"], current_dir := ["app", "terminal_root"],
    fs := jailFS, env := env0 }

/-- The session of `jailSt` moved into the `home` subdirectory. -/
def jailStHome : Shell :=
  { jailSt with current_dir := ["app", "terminal_root", "home"] }

/-! ## Dispatch lemmas shared by the claims -/

theorem shlexSplit_empty : shlexSplit "" = .ok [] := rfl

theorem pyStrip_empty : pyStrip "" = "" := rfl

/-- A successful parse is never empty-input: the guard of `execute`'s early
return contradicts a parse that yields a first token. -/
theorem not_empty_of_parsed (input : String) (w : String) (rest : List String)
    (hparse : shlexSplit (pyStrip input) = .ok (w :: rest)) :
    ¬ (input = "" ∨ pyStrip input = "") := by
  rintro (h | h)
  · rw [h, pyStrip_empty, shlexSplit_empty] at hparse
    simp at hparse
  · rw [h, shlexSplit_empty] at hparse
    simp at hparse

/-- `execute` after a successful parse, with the early-return and tokenizer
steps discharged. -/
theorem pyExecute_parsed (reg : Registry) (st : Shell) (input : String)
    (w : String) (rest : List String)
    (hparse : shlexSplit (pyStrip input) = .ok (w :: rest)) :
    pyExecute reg st input =
      (if reg.commands.contains (pyLower w) then
        match handlerFor (pyLower w) with
        | some h =>
          match h reg rest st with
          | (st', .ok out) => (st', .ok out)
          | (st', .error e) =>
            (st', .ok ("Error running " ++ pyLower w ++ ": " ++ e.msg))
        | none =>
          (st, .ok ("Handler for '" ++ pyLower w ++ "' not implemented yet."))
      else
        (st, .ok ("Command not found: " ++ pyLower w ++
          ". Type 'help' for available commands."))) := by
  unfold pyExecute
  rw [if_neg (not_empty_of_parsed input w rest hparse), hparse]

/-! ## C1 — the containment invariant of `cmd_cd` -/

/-- C1: refuted on the code (code bug).  The guard on line 117 tests
`str(new_path).startswith(str(self.terminal_root))` with no trailing
separator, so from a fresh session `cd ../terminal_rootX` — whose target is
the host sibling `/app/terminal_rootX`, outside the jail — passes the check
and is committed to `currentDir`; the command is not rejected with
"Directory not found" (it ends in a `ValueError` from `relative_to`,
converted by the dispatch boundary, with the escaped cursor kept). -/
theorem cd_prefix_check_commits_dir_outside_jail :
    (pyExecute ⟨["cd"], []⟩ jailSt "cd ../terminal_rootX").1.current_dir
        = ["app", "terminal_rootX"] ∧
    ¬ jailSt.terminal_root <+: ["app", "terminal_rootX"] ∧
    pyStartsWith (render ["app", "terminal_rootX"])
        (render jailSt.terminal_root ++ "/") = false ∧
    (pyExecute ⟨["cd"], []⟩ jailSt "cd ../terminal_rootX").2 =
      .ok ("Error running cd: /app/terminal_rootX is not in the subpath of /app/terminal_root") := by
  refine ⟨rfl, by decide, rfl, rfl⟩

/-! ## C2 — totality of `execute` -/

/-- C2: refuted on the code (the claim is corrected).  `shlex.split` runs
outside the `try` block of `execute`, so malformed quoting raises
`ValueError("No closing quotation")` to `execute`'s caller instead of being
returned as parse-error text. -/
theorem execute_raises_on_unclosed_quote :
    (pyExecute reg0 jailSt "echo \"unclosed").2 =
      .error ⟨.valueError, "No closing quotation"⟩ := rfl

/-- C2 (amended): for input that tokenizes, `execute` returns a string —
empty or whitespace-only input yields `""`, and an exception raised inside a
handler is caught at the dispatch boundary and converted to
`"Error running <name>: <message>"` (with the handler's state mutations
kept) — but an input whose quoting `shlex` rejects raises that `ValueError`
out of `execute` unhandled. -/
theorem execute_amended_contract (reg : Registry) (st : Shell) (input : String) :
    ((input = "" ∨ pyStrip input = "") → pyExecute reg st input = (st, .ok "")) ∧
    (∀ parts, shlexSplit (pyStrip input) = .ok parts →
      ∃ st' out, pyExecute reg st input = (st', .ok out)) ∧
    (∀ e, shlexSplit (pyStrip input) = .error e →
      pyExecute reg st input = (st, .error e)) ∧
    (∀ w rest h st2 e, shlexSplit (pyStrip input) = .ok (w :: rest) →
      reg.commands.contains (pyLower w) = true →
      handlerFor (pyLower w) = some h →
      h reg rest st = (st2, .error e) →
      pyExecute reg st input =
        (st2, .ok ("Error running " ++ pyLower w ++ ": " ++ e.msg))) := by
  refine ⟨fun h => ?_, fun parts hparse => ?_, fun e herr => ?_,
    fun w rest h st2 e hparse hmem hh hrun => ?_⟩
  · unfold pyExecute
    rw [if_pos h]
  · match parts, hparse with
    | [], hparse =>
      by_cases hc : input = "" ∨ pyStrip input = ""
      · exact ⟨st, "", by unfold pyExecute; rw [if_pos hc]⟩
      · exact ⟨st, "", by unfold pyExecute; rw [if_neg hc, hparse]⟩
    | w :: rest, hparse =>
      rw [pyExecute_parsed reg st input w rest hparse]
      by_cases hmem : reg.commands.contains (pyLower w) = true
      · rw [if_pos hmem]
        cases hfor : handlerFor (pyLower w) with
        | none => exact ⟨st, _, rfl⟩
        | some hdl =>
          rcases hrun : hdl reg rest st with ⟨st2, r2⟩
          cases r2 with
          | ok out => exact ⟨st2, out, by simp only [hrun]⟩
          | error e2 =>
            exact ⟨st2, "Error running " ++ pyLower w ++ ": " ++ e2.msg,
              by simp only [hrun]⟩
      · rw [if_neg hmem]
        exact ⟨st, _, rfl⟩
  · have hne : ¬ (input = "" ∨ pyStrip input = "") := by
      rintro (hc | hc)
      · rw [hc, pyStrip_empty, shlexSplit_empty] at herr
        simp at herr
      · rw [hc, shlexSplit_empty] at herr
        simp at herr
    unfold pyExecute
    rw [if_neg hne, herr]
  · rw [pyExecute_parsed reg st input w rest hparse, if_pos hmem, hh]
    simp only [hrun]

/-- C2 witness: the amended contract at concrete inputs — whitespace-only
input, a parsed input, a raised parse error, and a handler fault (`pwd`
raising `ValueError` after the jail escape of C1's scenario, converted by
the boundary). -/
theorem execute_amended_contract_witness :
    pyExecute reg0 jailSt "   " = (jailSt, .ok "") ∧
    (∃ st' out, pyExecute reg0 jailSt "xyzzy" = (st', .ok out)) ∧
    pyExecute reg0 jailSt "echo 'oops" =
      (jailSt, .error ⟨.valueError, "No closing quotation"⟩) ∧
    pyExecute ⟨["pwd"], []⟩ { jailSt with current_dir := ["app", "terminal_rootX"] }
        "pwd" =
      ({ jailSt with current_dir := ["app", "terminal_rootX"] },
       .ok ("Error running pwd: /app/terminal_rootX is not in the subpath of /app/terminal_root")) := by
  refine ⟨(execute_amended_contract reg0 jailSt "   ").1 (.inr rfl),
    (execute_amended_contract reg0 jailSt "xyzzy").2.1 ["xyzzy"] rfl,
    (execute_amended_contract reg0 jailSt "echo 'oops").2.2.1
      ⟨.valueError, "No closing quotation"⟩ rfl,
    (execute_amended_contract ⟨["pwd"], []⟩
      { jailSt with current_dir := ["app", "terminal_rootX"] } "pwd").2.2.2
      "pwd" [] cmd_pwd _ _ rfl rfl rfl rfl⟩

/-! ## C3 — containment of the creation/removal commands -/

/-- C3: refuted on the code (code bug).  `cmd_mkdir` — like the other
creation/removal handlers — joins its argument to `currentDir` and calls the
host operation with no containment check at all, so from a fresh session
`mkdir ../evil` creates the host directory `/app/evil`, outside the jail
root `/app/terminal_root` (it fails even the separator-suffixed prefix test
the claim states). -/
theorem mkdir_creates_directory_outside_jail :
    (pyExecute ⟨["mkdir"], []⟩ jailSt "mkdir ../evil").2 =
      .ok ("Created directory: ../evil") ∧
    fsLookup (pyExecute ⟨["mkdir"], []⟩ jailSt "mkdir ../evil").1.fs ["app", "evil"]
      = some (.dir 511 0) ∧
    ¬ jailSt.terminal_root <+: ["app", "evil"] ∧
    pyStartsWith (render ["app", "evil"]) (render jailSt.terminal_root) = false := by
  refine ⟨rfl, rfl, by decide, rfl⟩

/-! ## C4 — the unknown-command and unimplemented-handler messages -/

/-- C4: for a parsed input whose lowercased first token is not a registered
command, `execute` returns exactly the "Command not found" message; for a
registered name with no `cmd_<name>` method it returns exactly the
"not implemented yet" message. -/
theorem execute_unknown_and_unimplemented (reg : Registry) (st : Shell)
    (input : String) (w : String) (rest : List String)
    (hparse : shlexSplit (pyStrip input) = .ok (w :: rest)) :
    (reg.commands.contains (pyLower w) = false →
      pyExecute reg st input = (st, .ok ("Command not found: " ++ pyLower w ++
        ". Type 'help' for available commands."))) ∧
    (reg.commands.contains (pyLower w) = true →
      handlerFor (pyLower w) = none →
      pyExecute reg st input = (st, .ok ("Handler for '" ++ pyLower w ++
        "' not implemented yet."))) := by
  rw [pyExecute_parsed reg st input w rest hparse]
  constructor
  · intro hmem
    rw [hmem, if_neg Bool.false_ne_true]
  · intro hmem hfor
    rw [if_pos hmem, hfor]

/-- C4 witness: an unregistered `xyzzy`, and the registered-but-handlerless
`chown` reached through the upper-case spelling `CHOWN` (the first token is
case-folded). -/
theorem execute_unknown_and_unimplemented_witness :
    pyExecute ⟨["ls", "chown"], []⟩ jailSt "xyzzy" =
      (jailSt, .ok ("Command not found: xyzzy. Type 'help' for available commands.")) ∧
    pyExecute ⟨["ls", "chown"], []⟩ jailSt "CHOWN" =
      (jailSt, .ok ("Handler for 'chown' not implemented yet.")) := by
  refine ⟨(execute_unknown_and_unimplemented ⟨["ls", "chown"], []⟩ jailSt
      "xyzzy" "xyzzy" [] rfl).1 rfl,
    (execute_unknown_and_unimplemented ⟨["ls", "chown"], []⟩ jailSt
      "CHOWN" "CHOWN" [] rfl).2 rfl rfl⟩

/-! ## C5 — `cd ..` clamps at the jail root -/

/-- Iterated `cd ..` (the session threaded through the handler). -/
def cdUpIter (reg : Registry) : Nat → Shell → Shell
  | 0, st => st
  | n + 1, st => cdUpIter reg n (cmd_cd reg [".."] st).1

theorem cmd_cd_dotdot_at_root (reg : Registry) (st : Shell)
    (h : st.current_dir = st.terminal_root) :
    cmd_cd reg [".."] st =
      (st, .ok ("Changed to parent directory: " ++ render st.terminal_root)) := by
  simp only [cmd_cd]
  rw [if_pos trivial, if_neg (fun hc => hc h), h]

theorem cmd_cd_dotdot_strict (reg : Registry) (st : Shell)
    (h : st.current_dir ≠ st.terminal_root) :
    cmd_cd reg [".."] st =
      ({ st with current_dir := st.current_dir.dropLast },
       .ok ("Changed to parent directory: " ++ render st.current_dir.dropLast)) := by
  simp only [cmd_cd]
  rw [if_pos trivial, if_pos h]

theorem append_ne_left_of_ne_nil (l t : List String) (h : t ≠ []) : l ++ t ≠ l := by
  intro hEq
  have hlen := congrArg List.length hEq
  simp only [List.length_append] at hlen
  exact h (List.eq_nil_of_length_eq_zero (by omega))

theorem cdUpIter_fixed (reg : Registry) :
    ∀ (n : Nat) (st : Shell), st.current_dir = st.terminal_root →
      cdUpIter reg n st = st
  | 0, _, _ => rfl
  | n + 1, st, h => by
    show cdUpIter reg n (cmd_cd reg [".."] st).1 = st
    rw [cmd_cd_dotdot_at_root reg st h]
    exact cdUpIter_fixed reg n st h

/-- C5: `cd ..` at the jail root is a no-op reported with the ordinary
"Changed to parent directory" message (not an error); any number of
iterated `cd ..` from the root leaves the session unchanged; from a strict
descendant one `cd ..` moves `currentDir` to its parent. -/
theorem cd_dotdot_clamps_at_jail_root (reg : Registry) (st : Shell) :
    (st.current_dir = st.terminal_root →
      (cmd_cd reg [".."] st).1 = st ∧
      (cmd_cd reg [".."] st).2 =
        .ok ("Changed to parent directory: " ++ render st.terminal_root)) ∧
    (∀ n, st.current_dir = st.terminal_root → cdUpIter reg n st = st) ∧
    (∀ suffix, suffix ≠ [] → st.current_dir = st.terminal_root ++ suffix →
      (cmd_cd reg [".."] st).1.current_dir = st.current_dir.dropLast) := by
  refine ⟨fun h => ?_, fun n h => cdUpIter_fixed reg n st h,
    fun suffix hs h => ?_⟩
  · rw [cmd_cd_dotdot_at_root reg st h]
    exact ⟨rfl, rfl⟩
  · rw [cmd_cd_dotdot_strict reg st
      (by rw [h]; exact append_ne_left_of_ne_nil _ suffix hs)]

/-- C5 witness: at the jail root (also five times over), and from the
`home` subdirectory whose parent is the root again. -/
theorem cd_dotdot_clamps_witness :
    (cmd_cd reg0 [".."] jailSt).1 = jailSt ∧
    cdUpIter reg0 5 jailSt = jailSt ∧
    (cmd_cd reg0 [".."] jailStHome).1.current_dir = ["app", "terminal_root"] := by
  refine ⟨((cd_dotdot_clamps_at_jail_root reg0 jailSt).1 rfl).1,
    (cd_dotdot_clamps_at_jail_root reg0 jailSt).2.1 5 rfl, ?_⟩
  exact (cd_dotdot_clamps_at_jail_root reg0 jailStHome).2.2 ["home"]
    (by simp) rfl

/-! ## C10 — `pwd` reports the jail-relative path -/

theorem isPrefixOf_append_self (l t : List String) : l.isPrefixOf (l ++ t) = true := by
  induction l with
  | nil => simp [List.isPrefixOf]
  | cons a as ih => simp [List.isPrefixOf, ih]

theorem pyRelativeTo_append (root suffix : List String) :
    pyRelativeTo root (root ++ suffix) =
      some (if suffix = [] then "." else renderComps suffix) := by
  unfold pyRelativeTo
  rw [isPrefixOf_append_self]
  cases hs : suffix with
  | nil => simp
  | cons b bs =>
    rw [if_pos rfl, if_neg (append_ne_left_of_ne_nil root (b :: bs) (by simp)),
      List.drop_left]
    simp

theorem pyRelativeTo_self (root : List String) : pyRelativeTo root root = some "." := by
  simpa using pyRelativeTo_append root []

/-- C10: when `currentDir` equals the jail root, `pwd` returns exactly `"."`
— not the empty string and not an absolute host path — and for every
`currentDir` below the jail root it returns the jail-relative rendering of
the path. -/
theorem pwd_reports_jail_relative_path (reg : Registry) (st : Shell) :
    (st.current_dir = st.terminal_root →
      cmd_pwd reg [] st = (st, .ok ".") ∧
      ("." : String) ≠ "" ∧ pyStartsWith "." "/" = false) ∧
    (∀ suffix, st.current_dir = st.terminal_root ++ suffix →
      cmd_pwd reg [] st =
        (st, .ok (if suffix = [] then "." else renderComps suffix))) := by
  constructor
  · intro h
    refine ⟨?_, by simp, rfl⟩
    simp [cmd_pwd, h, pyRelativeTo_self]
  · intro suffix h
    simp only [cmd_pwd, h, pyRelativeTo_append]

/-- C10 witness: `pwd` at the jail root and in the `home` subdirectory. -/
theorem pwd_reports_jail_relative_witness :
    cmd_pwd reg0 [] jailSt = (jailSt, .ok ".") ∧
    cmd_pwd reg0 [] jailStHome = (jailStHome, .ok "home") := by
  refine ⟨((pwd_reports_jail_relative_path reg0 jailSt).1 rfl).1, ?_⟩
  exact (pwd_reports_jail_relative_path reg0 jailStHome).2 ["home"] rfl

/-! ## C6 — `grep` is plain substring matching -/

theorem isPrefixOf_iff (l : List Char) :
    ∀ t : List Char, l.isPrefixOf t = true ↔ l <+: t := by
  induction l with
  | nil => intro t; simp [List.isPrefixOf]
  | cons a as ih =>
    intro t
    cases t with
    | nil => simp [List.isPrefixOf]
    | cons b bs => simp [List.isPrefixOf, ih, List.cons_prefix_cons, And.comm]

/-- `pattern in line` decides exactly list-infix on the characters: plain
substring containment, with no regular-expression reading. -/
theorem containsSub_iff (pat : List Char) :
    ∀ l : List Char, containsSub pat l = true ↔ pat <:+: l := by
  intro l
  induction l with
  | nil =>
    simp [containsSub, List.infix_nil, List.isEmpty_iff]
  | cons c rest ih =>
    simp [containsSub, ih, isPrefixOf_iff, List.infix_cons_iff]

/-- The claim's reading of the grep output lines: one line `<i>:<line>` for
each 1-based line number `i` whose line contains the pattern, in increasing
line order. -/
def grepExpected (pat : String) : Nat → List String → List String
  | _, [] => []
  | i, l :: rest =>
    (if strContains pat l then [toString i ++ ":" ++ l] else []) ++
      grepExpected pat (i + 1) rest

theorem enumFrom_filterMap_grep (pat : String) :
    ∀ (ls : List String) (n : Nat),
      (List.enumFrom n ls).filterMap (fun il =>
        if strContains pat il.2 then some (toString (il.1 + 1) ++ ":" ++ il.2)
        else none) = grepExpected pat (n + 1) ls := by
  intro ls
  induction ls with
  | nil => intro n; rfl
  | cons l rest ih =>
    intro n
    rw [List.enumFrom, List.filterMap_cons]
    cases h : strContains pat l
    · simp only [h, if_false, Bool.false_eq_true]
      rw [ih (n + 1)]
      simp [grepExpected, h]
    · simp only [h, if_true]
      rw [ih (n + 1)]
      simp [grepExpected, h]

/-- C6: on an existing file, `grep` returns one `<i>:<line>` line per
1-based line number whose line contains the pattern as a plain substring
(`containsSub_iff` pins the "no regex" reading), joined by newlines in
increasing order, and exactly `"(no matches)"` when nothing matches. -/
theorem grep_plain_substring_matches (reg : Registry) (st : Shell)
    (pat fn : String) (rest : List String) (c : String) (mo mt : Nat)
    (hfile : fsLookup st.fs (resolvePath st.current_dir fn) =
      some (.file c mo mt)) :
    cmd_grep reg (pat :: fn :: rest) st =
      (st, .ok (if grepExpected pat 1 (pySplitlines c) = [] then "(no matches)"
        else String.intercalate "\n" (grepExpected pat 1 (pySplitlines c)))) ∧
    (∀ s : String, strContains pat s = true ↔ pat.data <:+: s.data) := by
  constructor
  · simp only [cmd_grep, hfile]
    have hms : (pySplitlines c).enum.filterMap (fun il =>
        if strContains pat il.2 then some (toString (il.1 + 1) ++ ":" ++ il.2)
        else none) = grepExpected pat 1 (pySplitlines c) :=
      enumFrom_filterMap_grep pat (pySplitlines c) 0
    rw [hms]
    cases hE : grepExpected pat 1 (pySplitlines c) with
    | nil => simp
    | cons x xs => simp
  · intro s
    exact containsSub_iff pat.data s.data

/-- C6 witness: on the fixture file `f.txt` (`foo` / `bar` / `foo baz`),
`grep foo` yields exactly lines 1 and 3; a pattern matching nowhere yields
the sentinel; and `f.o` — a regex that would match `foo` — does not match,
while plain containment does. -/
theorem grep_plain_substring_witness :
    cmd_grep reg0 ["foo", "f.txt"] jailSt = (jailSt, .ok "1:foo\n3:foo baz") ∧
    cmd_grep reg0 ["qq", "f.txt"] jailSt = (jailSt, .ok "(no matches)") ∧
    strContains "f.o" "foo" = false ∧ strContains "oo" "foo" = true := by
  refine ⟨?_, ?_, rfl, rfl⟩
  · exact (grep_plain_substring_matches reg0 jailSt "foo" "f.txt" []
      "foo\nbar\nfoo baz" 438 0 rfl).1.trans (by rfl)
  · exact (grep_plain_substring_matches reg0 jailSt "qq" "f.txt" []
      "foo\nbar\nfoo baz" 438 0 rfl).1.trans (by rfl)

/-! ## C7 — `uniq` collapses only adjacent duplicates -/

/-- The claim's reading: the first line is kept, and each later line is kept
exactly when it differs from the line immediately preceding it in the
input (pairing each line with its predecessor). -/
def adjacentKept : List String → List String
  | [] => []
  | a :: rest =>
    a :: (rest.zip (a :: rest)).filterMap
      (fun cp => if cp.1 ≠ cp.2 then some cp.1 else none)

theorem uniqLoop_eq_adjacent :
    ∀ (rest : List String) (a : String),
      uniqLoop (some a) rest = (rest.zip (a :: rest)).filterMap
        (fun cp => if cp.1 ≠ cp.2 then some cp.1 else none) := by
  intro rest
  induction rest with
  | nil => intro a; rfl
  | cons b r ih =>
    intro a
    rw [List.zip_cons_cons, List.filterMap_cons]
    by_cases h : b = a
    · subst h
      simp only [uniqLoop, ne_eq, not_true_eq_false, if_false, ite_self]
      simp [ih b]
    · simp only [uniqLoop, ne_eq, h, not_false_eq_true, if_true]
      simp [h, ih b]

theorem uniqLoop_none_eq (l : List String) : uniqLoop none l = adjacentKept l := by
  cases l with
  | nil => rfl
  | cons a rest =>
    simp [uniqLoop, adjacentKept, uniqLoop_eq_adjacent rest a]

/-- C7: on an existing file, `uniq` keeps a line exactly when it differs
from the immediately preceding input line (adjacent-only collapse); in
particular `[a, a, b, a]` yields `[a, b, a]`, not the global
deduplication `[a, b]`. -/
theorem uniq_collapses_adjacent_only (reg : Registry) (st : Shell)
    (a : String) (rest : List String) (c : String) (mo mt : Nat)
    (hfile : fsLookup st.fs (resolvePath st.current_dir a) =
      some (.file c mo mt)) :
    cmd_uniq reg (a :: rest) st =
      (st, .ok (String.intercalate "\n" (adjacentKept (pySplitlines c)))) ∧
    adjacentKept ["a", "a", "b", "a"] = ["a", "b", "a"] ∧
    adjacentKept ["a", "a", "b", "a"] ≠ ["a", "b"] := by
  refine ⟨?_, by decide, by decide⟩
  simp only [cmd_uniq, hfile, uniqLoop_none_eq]

/-- C7 witness: the fixture file `u.txt` holds the lines `a a b a` of the
claim's example; `uniq` returns `a b a`. -/
theorem uniq_collapses_adjacent_witness :
    cmd_uniq reg0 ["u.txt"] jailSt = (jailSt, .ok "a\nb\na") := by
  exact (uniq_collapses_adjacent_only reg0 jailSt "u.txt" [] "a\na\nb\na"
    438 0 rfl).1.trans (by rfl)

/-! ## C9 — `cd` output embeds the absolute host path of the jail -/

theorem renderComps_append_singleton :
    ∀ (r : List String), r ≠ [] → ∀ s : String,
      renderComps (r ++ [s]) = renderComps r ++ "/" ++ s
  | [], h, _ => absurd rfl h
  | [_], _, _ => rfl
  | a :: b :: rest, _, s => by
    have ih := renderComps_append_singleton (b :: rest) (by simp) s
    show a ++ "/" ++ renderComps ((b :: rest) ++ [s]) =
      a ++ "/" ++ renderComps (b :: rest) ++ "/" ++ s
    rw [ih]
    simp only [String.append_assoc]

theorem render_append_singleton (r : List String) (s : String) (h : r ≠ []) :
    render (r ++ [s]) = render r ++ "/" ++ s := by
  unfold render
  rw [renderComps_append_singleton r h s]
  simp only [String.append_assoc]

theorem string_append_left_ne (pre a b : String) (h : a ≠ b) :
    pre ++ a ≠ pre ++ b := by
  intro hEq
  apply h
  apply String.ext
  have hd := congrArg String.data hEq
  simp only [String.data_append] at hd
  exact List.append_cancel_left hd

theorem render_append_ne (r1 r2 : List String) (s : String)
    (h1 : r1 ≠ []) (h2 : r2 ≠ []) (hne : render r1 ≠ render r2) :
    render (r1 ++ [s]) ≠ render (r2 ++ [s]) := by
  rw [render_append_singleton r1 s h1, render_append_singleton r2 s h2]
  intro hEq
  apply hne
  apply String.ext
  have hd := congrArg String.data hEq
  simp only [String.data_append] at hd
  exact List.append_cancel_right (List.append_cancel_right hd)

/-- C9: the outputs of `cd` with no argument, with `~` and with `..` embed
the absolute host path of the new current directory, so two freshly
constructed sessions that differ only in where their jail root lives on the
host (different absolute path strings) answer these commands differently:
the host location flows into command output. -/
theorem cd_output_embeds_host_jail_path (r1 r2 : List String) (fs1 fs2 : FS)
    (e1 e2 : Env) (reg : Registry)
    (h1 : r1 ≠ []) (h2 : r2 ≠ []) (hne : render r1 ≠ render r2) :
    (cmd_cd reg [] ⟨r1, r1, fs1, e1⟩).2 =
      .ok ("Changed to home directory: " ++ render (r1 ++ ["home"])) ∧
    (cmd_cd reg [] ⟨r1, r1, fs1, e1⟩).2 ≠ (cmd_cd reg [] ⟨r2, r2, fs2, e2⟩).2 ∧
    (cmd_cd reg ["~"] ⟨r1, r1, fs1, e1⟩).2 ≠ (cmd_cd reg ["~"] ⟨r2, r2, fs2, e2⟩).2 ∧
    (cmd_cd reg [".."] ⟨r1, r1, fs1, e1⟩).2 ≠ (cmd_cd reg [".."] ⟨r2, r2, fs2, e2⟩).2 := by
  have hhome : render (r1 ++ ["home"]) ≠ render (r2 ++ ["home"]) :=
    render_append_ne r1 r2 "home" h1 h2 hne
  refine ⟨rfl, ?_, ?_, ?_⟩
  · show Except.ok ("Changed to home directory: " ++ render (r1 ++ ["home"])) ≠
      Except.ok ("Changed to home directory: " ++ render (r2 ++ ["home"]))
    intro hEq
    exact string_append_left_ne _ _ _ hhome (Except.ok.inj hEq)
  · show Except.ok ("Changed to home directory: " ++ render (r1 ++ ["home"])) ≠
      Except.ok ("Changed to home directory: " ++ render (r2 ++ ["home"]))
    intro hEq
    exact string_append_left_ne _ _ _ hhome (Except.ok.inj hEq)
  · rw [cmd_cd_dotdot_at_root reg ⟨r1, r1, fs1, e1⟩ rfl,
      cmd_cd_dotdot_at_root reg ⟨r2, r2, fs2, e2⟩ rfl]
    show Except.ok ("Changed to parent directory: " ++ render r1) ≠
      Except.ok ("Changed to parent directory: " ++ render r2)
    intro hEq
    exact string_append_left_ne _ _ _ hne (Except.ok.inj hEq)

/-- A second fresh session, identical except that its jail root lives at
`/tmp/terminal_root` on the host. -/
def jailStB : Shell :=
  { terminal_root := ["tmp", "terminal_root"], current_dir := ["tmp", "terminal_root"],
    fs := jailFS, env := env0 }

/-- C9 witness: the two sessions rooted at `/app/terminal_root` and
`/tmp/terminal_root` answer `cd`, `cd ~` and `cd ..` differently. -/
theorem cd_output_embeds_host_jail_path_witness :
    (cmd_cd reg0 [] jailSt).2 ≠ (cmd_cd reg0 [] jailStB).2 ∧
    (cmd_cd reg0 ["~"] jailSt).2 ≠ (cmd_cd reg0 ["~"] jailStB).2 ∧
    (cmd_cd reg0 [".."] jailSt).2 ≠ (cmd_cd reg0 [".."] jailStB).2 := by
  have h := cd_output_embeds_host_jail_path ["app", "terminal_root"]
    ["tmp", "terminal_root"] jailFS jailFS env0 env0 reg0
    (by simp) (by simp) (by decide)
  exact ⟨h.2.1, h.2.2.1, h.2.2.2⟩

/-! ## C8 — the `help` table -/

theorem lexLe_cons_iff (a b : Char) (as bs : List Char) :
    lexLe (a :: as) (b :: bs) = true ↔ a < b ∨ (a = b ∧ lexLe as bs = true) := by
  simp only [lexLe]
  by_cases h1 : a < b
  · simp [h1]
  · by_cases h2 : b < a
    · have hne : a ≠ b := fun hEq => absurd (hEq ▸ h2) (lt_irrefl a)
      simp [h1, h2, hne]
    · have hEq : a = b := le_antisymm (not_lt.mp h2) (not_lt.mp h1)
      simp [h1, h2, hEq]

theorem lexLe_total : ∀ a b : List Char, lexLe a b = true ∨ lexLe b a = true
  | [], _ => .inl rfl
  | _ :: _, [] => .inr rfl
  | a :: as, b :: bs => by
    rw [lexLe_cons_iff, lexLe_cons_iff]
    rcases lt_trichotomy a b with h | h | h
    · exact .inl (.inl h)
    · rcases lexLe_total as bs with hr | hr
      · exact .inl (.inr ⟨h, hr⟩)
      · exact .inr (.inr ⟨h.symm, hr⟩)
    · exact .inr (.inl h)

theorem lexLe_trans : ∀ a b c : List Char,
    lexLe a b = true → lexLe b c = true → lexLe a c = true
  | [], _, _, _, _ => rfl
  | _ :: _, [], _, h, _ => by simp [lexLe] at h
  | _ :: _, _ :: _, [], _, h => by simp [lexLe] at h
  | a :: as, b :: bs, c :: cs, hab, hbc => by
    rw [lexLe_cons_iff] at hab hbc ⊢
    rcases hab with h1 | ⟨rfl, h1⟩
    · rcases hbc with h2 | ⟨rfl, h2⟩
      · exact .inl (h1.trans h2)
      · exact .inl h1
    · rcases hbc with h2 | ⟨rfl, h2⟩
      · exact .inl h2
      · exact .inr ⟨rfl, lexLe_trans as bs cs h1 h2⟩

theorem pyStrLe_total (a b : String) : pyStrLe a b = true ∨ pyStrLe b a = true :=
  lexLe_total a.data b.data

theorem pyStrLe_trans (a b c : String) :
    pyStrLe a b = true → pyStrLe b c = true → pyStrLe a c = true :=
  lexLe_trans a.data b.data c.data

theorem mem_pyInsert (a x : String) (l : List String) :
    a ∈ pyInsert x l ↔ a = x ∨ a ∈ l := by
  induction l with
  | nil => simp [pyInsert]
  | cons y ys ih =>
    by_cases h : pyStrLe x y = true
    · simp [pyInsert, h, List.mem_cons]
    · have hb : pyStrLe x y = false := by
        cases hxy : pyStrLe x y
        · rfl
        · exact absurd hxy h
      simp only [pyInsert, hb, Bool.false_eq_true, if_false, List.mem_cons, ih]
      tauto

theorem pairwise_pyInsert (x : String) (l : List String)
    (hl : l.Pairwise (fun a b => pyStrLe a b = true)) :
    (pyInsert x l).Pairwise (fun a b => pyStrLe a b = true) := by
  induction l with
  | nil => simp [pyInsert]
  | cons y ys ih =>
    rcases List.pairwise_cons.mp hl with ⟨hy, hys⟩
    by_cases h : pyStrLe x y = true
    · simp only [pyInsert, h, if_true]
      refine List.pairwise_cons.mpr ⟨?_, hl⟩
      intro z hz
      rcases List.mem_cons.mp hz with rfl | hz
      · exact h
      · exact pyStrLe_trans x y z h (hy z hz)
    · simp only [pyInsert, h, if_false]
      refine List.pairwise_cons.mpr ⟨?_, ih hys⟩
      intro z hz
      rcases (mem_pyInsert z x ys).mp hz with rfl | hz
      · rcases pyStrLe_total z y with hzy | hyz
        · exact absurd hzy h
        · exact hyz
      · exact hy z hz

/-- Python's `sorted` really sorts: the output is pairwise `≤` in the
code-point lexicographic order. -/
theorem pairwise_pySorted (l : List String) :
    (pySorted l).Pairwise (fun a b => pyStrLe a b = true) := by
  induction l with
  | nil => simp [pySorted]
  | cons x xs ih => exact pairwise_pyInsert x (pySorted xs) ih

theorem mem_pySorted (a : String) (l : List String) :
    a ∈ pySorted l ↔ a ∈ l := by
  induction l with
  | nil => simp [pySorted]
  | cons x xs ih => simp [pySorted, mem_pyInsert, ih, List.mem_cons]

theorem strConcat_append (l1 l2 : List String) :
    strConcat (l1 ++ l2) = strConcat l1 ++ strConcat l2 := by
  induction l1 with
  | nil => simp [strConcat]
  | cons a r ih => simp [strConcat, ih, String.append_assoc]

/-- A piece of a concatenation: the rendering of any member of the mapped
list occurs contiguously in the concatenated string. -/
theorem strConcat_map_infix {α : Type} (f : α → String) (l : List α) (x : α)
    (hx : x ∈ l) :
    (f x).data <:+: (strConcat (l.map f)).data := by
  rcases List.append_of_mem hx with ⟨s, t, rfl⟩
  refine ⟨(strConcat (s.map f)).data, (strConcat (t.map f)).data, ?_⟩
  simp [List.map_append, strConcat_append, strConcat, String.data_append,
    List.append_assoc]

/-- C8: with `currentDir` under the jail and every registered command
covered by the hard-coded category table (which holds for the spec's
registry), `help` returns one body that ends in the footer showing the
jail-relative current directory and the navigation tip; every registered
command with a help-text entry contributes its formatted line inside its
declared category's block, which itself occurs in the body; and each
category block lists exactly its category's commands in Python-sorted
(pairwise lexicographically ordered) sequence. -/
theorem help_lists_every_command_with_text (reg : Registry) (st : Shell)
    (rel : String)
    (hrel : pyRelativeTo st.terminal_root st.current_dir = some rel)
    (hcov : ∀ c ∈ reg.commands, ∃ cat, cat ∈ helpCategories ∧ c ∈ cat.2) :
    ∃ body,
      cmd_help reg [] st = (st, .ok body) ∧
      (∃ pre, body = pre ++ ("Current directory: " ++ rel ++
        "\nTip: Use 'cd ..' to go up one directory level")) ∧
      (∀ c ∈ reg.commands, ∀ t, helpLookup reg.commandHelp c = some t →
        ∃ cat, cat ∈ helpCategories ∧ c ∈ cat.2 ∧
          helpCmdLine reg.commandHelp c =
            "  " ++ padTo10 c ++ " - " ++ t ++ "\n" ∧
          (helpCmdLine reg.commandHelp c).data <:+:
            (helpCatBlock reg.commandHelp cat).data ∧
          (helpCatBlock reg.commandHelp cat).data <:+: body.data) ∧
      (∀ cat : String × List String,
        helpCatBlock reg.commandHelp cat = cat.1 ++ ":\n" ++
          strConcat ((pySorted cat.2).map (helpCmdLine reg.commandHelp)) ++ "\n" ∧
        (pySorted cat.2).Pairwise (fun a b => pyStrLe a b = true) ∧
        (∀ c, c ∈ pySorted cat.2 ↔ c ∈ cat.2)) := by
  refine ⟨"Available commands:\n\n" ++
    strConcat (helpCategories.map (helpCatBlock reg.commandHelp)) ++
    "Current directory: " ++ rel ++
    "\nTip: Use 'cd ..' to go up one directory level", ?_, ?_, ?_, ?_⟩
  · simp only [cmd_help, hrel]
  · refine ⟨"Available commands:\n\n" ++
      strConcat (helpCategories.map (helpCatBlock reg.commandHelp)), ?_⟩
    simp [String.append_assoc]
  · intro c hc t ht
    rcases hcov c hc with ⟨cat, hcat, hmem⟩
    refine ⟨cat, hcat, hmem, by simp [helpCmdLine, ht], ?_, ?_⟩
    · have h1 : (helpCmdLine reg.commandHelp c).data <:+:
          (strConcat ((pySorted cat.2).map (helpCmdLine reg.commandHelp))).data :=
        strConcat_map_infix (helpCmdLine reg.commandHelp) (pySorted cat.2) c
          ((mem_pySorted c cat.2).mpr hmem)
      refine h1.trans ?_
      refine ⟨(cat.1 ++ ":\n").data, ("\n" : String).data, ?_⟩
      simp [helpCatBlock, String.data_append, List.append_assoc]
    · have h2 : (helpCatBlock reg.commandHelp cat).data <:+:
          (strConcat (helpCategories.map (helpCatBlock reg.commandHelp))).data :=
        strConcat_map_infix (helpCatBlock reg.commandHelp) helpCategories cat hcat
      refine h2.trans ?_
      refine ⟨("Available commands:\n\n" : String).data,
        ("Current directory: " ++ rel ++
          "\nTip: Use 'cd ..' to go up one directory level").data, ?_⟩
      simp [String.data_append, List.append_assoc]
  · intro cat
    exact ⟨rfl, pairwise_pySorted cat.2, fun c => mem_pySorted c cat.2⟩

/-- A concrete registry for the C8 witness: two commands with help text. -/
def regH : Registry :=
  { commands := ["cd", "ls"],
    commandHelp := [("cd", "Change directory"), ("ls", "List directory contents")] }

/-- C8 witness: in the fresh session, the help body exists and the rendered
`cd` line occurs in it (inside its category block). -/
theorem help_lists_every_command_witness :
    ∃ body, cmd_help regH [] jailSt = (jailSt, .ok body) ∧
      ("  " ++ padTo10 "cd" ++ " - " ++ "Change directory" ++ "\n").data <:+:
        body.data := by
  obtain ⟨body, h1, _, h3, _⟩ :=
    help_lists_every_command_with_text regH jailSt "." rfl (by decide)
  obtain ⟨cat, _, _, hline, hinf1, hinf2⟩ :=
    h3 "cd" (by decide) "Change directory" rfl
  exact ⟨body, h1, hline ▸ hinf1.trans hinf2⟩

end PyShell
